import Mathlib

/-!
# Verification of the dukecook meal-planning core

Shallow embedding of the three logic-bearing components of the repository:

* the dietary rules engine (`src/api/app/services/rules_engine.py`),
* the shopping-list generator (`src/api/app/services/shopping_generator.py`),
* the swipe-session state machine (`src/api/app/routers/swipe.py`).

Conventions of the embedding:

* SQL dates (`datetime.date`) are modelled as integers counting days, so
  `date + timedelta(days = n)` becomes integer addition.
* Python floats used for ingredient quantities are modelled as rationals
  (`ℚ`); the aggregation only adds, so this is exact for the additive
  structure under study.
* Database tables are lists of rows; SQLAlchemy `select ... where` becomes
  `List.filter`, joins become nested lookups, and `func.count` becomes
  `List.countP` / `List.length`.
* Python's leading-underscore function names drop the underscore (Lean
  reserves it): `_eval_no_repeat` becomes `eval_no_repeat`, etc.
* Statuses and decisions are the literal strings the source uses.
-/

namespace DukeCook

/-! ## Rules engine data model (src/api/app/models.py, rules_engine.py)

`MealPlanRow` mirrors the `meal_plan` table columns used by the engine and
the shopping generator.  `RulesDb.recipe_tags` is the flattened
`recipe_tags JOIN tags` view: one `(recipe_id, tag_name)` pair per
`RecipeTag` row, with the joined tag's name (tag ids are primary keys, so
resolving `tag_id` to the unique tag name is lossless). -/

structure MealPlanRow where
  id : Nat
  date : Int
  recipe_id : Nat
  status : String
  deriving DecidableEq, Repr

structure RulesDb where
  meal_plans : List MealPlanRow
  recipe_tags : List (Nat × String)
  deriving DecidableEq, Repr

/-- The `config` JSON column of `DietaryRule`.  Each field is `Option`al
because `config.get(key, default)` tolerates missing keys; the defaults
from the source are applied at the use sites, exactly as `dict.get` does. -/
structure RuleConfig where
  protein : Option String
  max : Option Int
  min : Option Int
  period_days : Option Int
  min_days_between_repeat : Option Int
  tag : Option String
  deriving DecidableEq, Repr

structure DietaryRule where
  id : Nat
  name : String
  rule_type : String
  config : RuleConfig
  active : Bool
  deriving DecidableEq, Repr

/-- The dict returned by `_evaluate_single_rule`; `details` values are
stringified. -/
structure RuleResult where
  rule_id : Nat
  rule_name : String
  status : String
  message : String
  details : List (String × String)
  deriving DecidableEq, Repr

/-- Python `str.lower()` over the string's characters (kernel-computable
form of `String.toLower`). -/
def py_lower (s : String) : String :=
  ⟨s.data.map Char.toLower⟩

/-- Python `str.strip()`: drop leading and trailing whitespace. -/
def py_strip (s : String) : String :=
  ⟨((s.data.dropWhile Char.isWhitespace).reverse.dropWhile Char.isWhitespace).reverse⟩

/-- Python `str.title()` restricted to space-separated words (the rule
configs use single-word protein/tag names; messages are not claim-bearing
beyond the unknown-rule advisory). -/
def pyTitle (s : String) : String :=
  String.intercalate " " ((s.split (· = ' ')).map String.capitalize)

/-- Embeds `_recipe_has_tag`: does the recipe carry a tag named
`tag_name.lower()`?  (`Tag.name == tag_name.lower()` in the source.) -/
def recipe_has_tag (db : RulesDb) (recipe_id : Nat) (tag_name : String) : Bool :=
  db.recipe_tags.any (fun rt => rt.1 == recipe_id && rt.2 == py_lower tag_name)

/-- The WHERE clause shared by the windowed counts:
`MealPlan.status != "skipped" AND start <= date AND date <= stop`. -/
def in_window (start stop : Int) (p : MealPlanRow) : Bool :=
  p.status != "skipped" && decide (start ≤ p.date) && decide (p.date ≤ stop)

/-- Embeds `_count_protein_in_plan`: length of
`MealPlan JOIN Recipe JOIN RecipeTag JOIN Tag` filtered on the window and
the tag name.  The join yields one row per (plan, matching tag row) pair,
so the count is the sum over windowed plans of their matching tag rows. -/
def count_protein_in_plan (db : RulesDb) (protein : String) (start stop : Int) : Nat :=
  (db.meal_plans.map (fun p =>
    if in_window start stop p then
      db.recipe_tags.countP (fun rt => rt.1 == p.recipe_id && rt.2 == py_lower protein)
    else 0)).sum

/-- Embeds `_count_tag_in_plan`, which delegates to `_count_protein_in_plan`. -/
def count_tag_in_plan (db : RulesDb) (tag_name : String) (start stop : Int) : Nat :=
  count_protein_in_plan db tag_name start stop

/-- Embeds `_eval_protein_max`. -/
def eval_protein_max (db : RulesDb) (rule : DietaryRule) (plan_date : Int)
    (recipe_id : Nat) : RuleResult :=
  let protein := rule.config.protein.getD ""
  let max_count := rule.config.max.getD 2
  let period_days := rule.config.period_days.getD 7
  let period_start := plan_date - period_days
  let base := count_protein_in_plan db protein period_start plan_date
  let count : Int := (base : Int) + (if recipe_has_tag db recipe_id protein then 1 else 0)
  let details := [("protein", protein), ("count", toString count),
    ("max", toString max_count), ("period_days", toString period_days)]
  if count > max_count then
    { rule_id := rule.id, rule_name := rule.name, status := "violated",
      message := pyTitle protein ++ " would appear " ++ toString count ++ "x in " ++
        toString period_days ++ " days (max " ++ toString max_count ++ ")",
      details := details }
  else if count = max_count then
    { rule_id := rule.id, rule_name := rule.name, status := "warning",
      message := pyTitle protein ++ " at limit: " ++ toString count ++ "x in " ++
        toString period_days ++ " days (max " ++ toString max_count ++ ")",
      details := details }
  else
    { rule_id := rule.id, rule_name := rule.name, status := "ok",
      message := pyTitle protein ++ ": " ++ toString count ++ "/" ++ toString max_count ++
        " in " ++ toString period_days ++ " days",
      details := details }

/-- Embeds `_eval_protein_min`. -/
def eval_protein_min (db : RulesDb) (rule : DietaryRule) (plan_date : Int)
    (recipe_id : Nat) : RuleResult :=
  let protein := rule.config.protein.getD ""
  let min_count := rule.config.min.getD 1
  let period_days := rule.config.period_days.getD 14
  let period_start := plan_date - period_days
  let base := count_protein_in_plan db protein period_start plan_date
  let count : Int := (base : Int) + (if recipe_has_tag db recipe_id protein then 1 else 0)
  let details := [("protein", protein), ("count", toString count),
    ("min", toString min_count), ("period_days", toString period_days)]
  if count < min_count then
    { rule_id := rule.id, rule_name := rule.name, status := "warning",
      message := pyTitle protein ++ " only " ++ toString count ++ "x in last " ++
        toString period_days ++ " days (need " ++ toString min_count ++ "+)",
      details := details }
  else
    { rule_id := rule.id, rule_name := rule.name, status := "ok",
      message := pyTitle protein ++ ": " ++ toString count ++ "/" ++ toString min_count ++
        "+ in " ++ toString period_days ++ " days ✓",
      details := details }

/-- Embeds `_eval_no_repeat`. -/
def eval_no_repeat (db : RulesDb) (rule : DietaryRule) (plan_date : Int)
    (recipe_id : Nat) : RuleResult :=
  let min_days := rule.config.min_days_between_repeat.getD 14
  let period_start := plan_date - min_days
  let recent := db.meal_plans.filter (fun p =>
    p.recipe_id == recipe_id && in_window period_start plan_date p)
  match recent with
  | [] =>
    { rule_id := rule.id, rule_name := rule.name, status := "ok",
      message := "Not repeated within " ++ toString min_days ++ " days ✓",
      details := [("min_days", toString min_days)] }
  | p :: ps =>
    let last_date := ps.foldl (fun acc q => max acc q.date) p.date
    let days_since := plan_date - last_date
    { rule_id := rule.id, rule_name := rule.name, status := "violated",
      message := "This recipe was planned " ++ toString days_since ++
        " days ago (minimum gap: " ++ toString min_days ++ " days)",
      details := [("last_date", toString last_date), ("days_since", toString days_since),
        ("min_days", toString min_days)] }

/-- Embeds `_eval_min_tag`. -/
def eval_min_tag (db : RulesDb) (rule : DietaryRule) (plan_date : Int)
    (recipe_id : Nat) : RuleResult :=
  let tag_name := rule.config.tag.getD ""
  let min_count := rule.config.min.getD 2
  let period_days := rule.config.period_days.getD 7
  let period_start := plan_date - period_days
  let base := count_tag_in_plan db tag_name period_start plan_date
  let count : Int := (base : Int) + (if recipe_has_tag db recipe_id tag_name then 1 else 0)
  if count < min_count then
    { rule_id := rule.id, rule_name := rule.name, status := "warning",
      message := "'" ++ tag_name ++ "' only " ++ toString count ++ "x in " ++
        toString period_days ++ " days (want " ++ toString min_count ++ "+)",
      details := [("tag", tag_name), ("count", toString count), ("min", toString min_count)] }
  else
    { rule_id := rule.id, rule_name := rule.name, status := "ok",
      message := "'" ++ tag_name ++ "': " ++ toString count ++ "/" ++ toString min_count ++ "+ ✓",
      details := [("tag", tag_name), ("count", toString count), ("min", toString min_count)] }

/-- Embeds `_eval_max_tag`. -/
def eval_max_tag (db : RulesDb) (rule : DietaryRule) (plan_date : Int)
    (recipe_id : Nat) : RuleResult :=
  let tag_name := rule.config.tag.getD ""
  let max_count := rule.config.max.getD 2
  let period_days := rule.config.period_days.getD 7
  let period_start := plan_date - period_days
  let base := count_tag_in_plan db tag_name period_start plan_date
  let count : Int := (base : Int) + (if recipe_has_tag db recipe_id tag_name then 1 else 0)
  let details := [("tag", tag_name), ("count", toString count),
    ("max", toString max_count), ("period_days", toString period_days)]
  if count > max_count then
    { rule_id := rule.id, rule_name := rule.name, status := "violated",
      message := "'" ++ tag_name ++ "' would appear " ++ toString count ++ "x in " ++
        toString period_days ++ " days (max " ++ toString max_count ++ ")",
      details := details }
  else if count = max_count then
    { rule_id := rule.id, rule_name := rule.name, status := "warning",
      message := "'" ++ tag_name ++ "' at limit: " ++ toString count ++ "x in " ++
        toString period_days ++ " days (max " ++ toString max_count ++ ")",
      details := details }
  else
    { rule_id := rule.id, rule_name := rule.name, status := "ok",
      message := "'" ++ tag_name ++ "': " ++ toString count ++ "/" ++ toString max_count ++
        " in " ++ toString period_days ++ " days",
      details := details }

/-- Embeds `_evaluate_single_rule`: dispatch on `rule_type`, unknown types fall
open to "ok" with an advisory message. -/
def evaluate_single_rule (db : RulesDb) (rule : DietaryRule) (plan_date : Int)
    (recipe_id : Nat) : RuleResult :=
  if rule.rule_type = "protein_max_per_week" then
    eval_protein_max db rule plan_date recipe_id
  else if rule.rule_type = "protein_min_per_period" then
    eval_protein_min db rule plan_date recipe_id
  else if rule.rule_type = "no_repeat_within_days" then
    eval_no_repeat db rule plan_date recipe_id
  else if rule.rule_type = "min_tag_per_week" then
    eval_min_tag db rule plan_date recipe_id
  else if rule.rule_type = "max_tag_per_week" then
    eval_max_tag db rule plan_date recipe_id
  else
    { rule_id := rule.id, rule_name := rule.name, status := "ok",
      message := "Unknown rule type: " ++ rule.rule_type, details := [] }

/-- Embeds `evaluate_rules`: maps the single-rule evaluation over the active rules.
(The source wraps each call in try/except for runtime I/O failures; the
pure embedding cannot raise, so that branch is unreachable here.) -/
def evaluate_rules (db : RulesDb) (rules : List DietaryRule) (plan_date : Int)
    (recipe_id : Nat) : List RuleResult :=
  (rules.filter (fun r => r.active)).map
    (fun r => evaluate_single_rule db r plan_date recipe_id)

/-! ## Shopping list generator (src/api/app/services/shopping_generator.py) -/

structure RecipeIngredientRow where
  recipe_id : Nat
  ingredient_id : Option Nat
  raw_text : String
  quantity : Option ℚ
  unit : String
  deriving DecidableEq, Repr

structure IngredientRow where
  id : Nat
  name : String
  category : String
  deriving DecidableEq, Repr

structure ShoppingDb where
  meal_plans : List MealPlanRow
  recipe_ingredients : List RecipeIngredientRow
  ingredients : List IngredientRow
  pantry_staples : List String
  deriving DecidableEq, Repr

/-- The `CATEGORY_TO_AISLE` mapping. -/
def CATEGORY_TO_AISLE : List (String × String) :=
  [("produce", "🥬 Produce"), ("dairy", "🥛 Dairy"), ("meat", "🥩 Meat & Seafood"),
   ("pantry", "🥫 Pantry"), ("spice", "🧂 Spices & Seasonings"), ("frozen", "🧊 Frozen"),
   ("bakery", "🍞 Bakery"), ("other", "📦 Other")]

/-- One bucket of the `aggregated` defaultdict.  The default entry has
`quantity = 0`, `unit = ""`, `aisle = "📦 Other"`, `recipe_count = 0`; the
`name` key is absent until the first assignment, modelled as `""`. -/
structure AggEntry where
  name : String
  quantity : ℚ
  unit : String
  aisle : String
  recipe_count : Nat
  deriving DecidableEq, Repr

def default_agg_entry : AggEntry :=
  { name := "", quantity := 0, unit := "", aisle := "📦 Other", recipe_count := 0 }

/-- The loop body's mutations on one bucket: set name and aisle, bump
`recipe_count`, and — only when the row's quantity is truthy — add the
quantity and record the first non-empty unit. -/
def touch_entry (ing_name aisle : String) (q : Option ℚ) (u : String)
    (e : AggEntry) : AggEntry :=
  let e1 := { e with name := ing_name, aisle := aisle, recipe_count := e.recipe_count + 1 }
  match q with
  | none => e1
  | some qv =>
    if qv ≠ 0 then
      let e2 := { e1 with quantity := e1.quantity + qv }
      if u ≠ "" ∧ e2.unit = "" then { e2 with unit := u } else e2
    else e1

/-- Update the insertion-ordered association list backing the defaultdict:
mutate the existing bucket, or append a fresh default bucket. -/
def agg_update (agg : List (String × AggEntry)) (key : String)
    (f : AggEntry → AggEntry) : List (String × AggEntry) :=
  if agg.any (fun kv => kv.1 == key) then
    agg.map (fun kv => if kv.1 == key then (kv.1, f kv.2) else kv)
  else
    agg ++ [(key, f default_agg_entry)]

/-- The body of `for ing in ingredients`: resolve the display name and
aisle (normalized `Ingredient` row when `ing.ingredient_id` is truthy and
found, else the raw text and "Other"), then fold the row into its bucket
keyed by `name.lower().strip()`. -/
def process_ing (db : ShoppingDb) (agg : List (String × AggEntry))
    (ing : RecipeIngredientRow) : List (String × AggEntry) :=
  let resolved :=
    if ing.ingredient_id.getD 0 ≠ 0 then
      match db.ingredients.find? (fun row => row.id == ing.ingredient_id.getD 0) with
      | some nrm => (nrm.name, (CATEGORY_TO_AISLE.lookup nrm.category).getD "📦 Other")
      | none => (ing.raw_text, "📦 Other")
    else (ing.raw_text, "📦 Other")
  let key := py_strip (py_lower resolved.1)
  agg_update agg key (touch_entry resolved.1 resolved.2 ing.quantity ing.unit)

structure ShoppingItem where
  name : String
  quantity : Option ℚ
  unit : String
  aisle : String
  deriving DecidableEq, Repr

structure ShoppingListOut where
  name : String
  week_of : Int
  meal_plan_ids : List Nat
  items : List ShoppingItem
  deriving DecidableEq, Repr

/-- Embeds `generate_shopping_list`.  Dates are day numbers, so the list title
renders `week_of` via `toString` rather than ISO formatting; nothing else
differs from the source flow:

1. filter the week's non-skipped meal plans (empty → item-free list),
2. fold every plan's recipe ingredients into `aggregated`,
3. drop buckets whose key is a normalized pantry-staple name,
4. emit items sorted by aisle, `quantity > 0` or else `none`. -/
def generate_shopping_list (db : ShoppingDb) (week_of : Int) (name : String) :
    ShoppingListOut :=
  let week_end := week_of + 6
  let plans := db.meal_plans.filter (fun p =>
    decide (week_of ≤ p.date) && decide (p.date ≤ week_end) && p.status != "skipped")
  let plan_ids := plans.map (fun p => p.id)
  let list_name := if name ≠ "" then name else "Week of " ++ toString week_of
  if plans.isEmpty then
    { name := list_name, week_of := week_of, meal_plan_ids := plan_ids, items := [] }
  else
    let recipe_ids := plans.map (fun p => p.recipe_id)
    let aggregated := recipe_ids.foldl (fun agg rid =>
      (db.recipe_ingredients.filter (fun ri => ri.recipe_id == rid)).foldl
        (process_ing db) agg) []
    let pantry_names := db.pantry_staples.map (fun n => py_strip (py_lower n))
    let sorted := aggregated.mergeSort (fun a b => decide (a.2.aisle ≤ b.2.aisle))
    let items := (sorted.filter (fun kv => !(pantry_names.contains kv.1))).map
      (fun kv =>
        { name := kv.2.name,
          quantity := if kv.2.quantity > 0 then some kv.2.quantity else none,
          unit := kv.2.unit, aisle := kv.2.aisle })
    { name := list_name, week_of := week_of, meal_plan_ids := plan_ids, items := items }

/-! ## Swipe session state machine (src/api/app/routers/swipe.py)

One session's rows, session-locally: its `SwipeCard`s, its `SwipeMatch`
recipe ids (one list element per row), and its `status` column.  The
per-request transactions of the source serialize swipes, so a session's
history is a list of `SwipeAction`s applied in order. -/

structure SwipeCard where
  recipe_id : Nat
  user_id : Nat
  decision : Option String
  deriving DecidableEq, Repr

structure SwipeState where
  cards : List SwipeCard
  match_rows : List Nat
  status : String
  deriving DecidableEq, Repr

structure SwipeAction where
  recipe_id : Nat
  user_id : Nat
  decision : String
  deriving DecidableEq, Repr

/-- Recipe rows as far as pool filtering sees them (`total_time_min` and
`difficulty` are nullable columns). -/
structure Recipe where
  id : Nat
  total_time_min : Option Int
  difficulty : Option String
  deriving DecidableEq, Repr

/-- The context-based pool filter of `create_session`:
`quick`/`weeknight` keeps `total_time_min <= 45 OR total_time_min IS NULL`;
`date_night` keeps `difficulty IN ('medium','hard')` (SQL `IN` drops NULL).
The subsequent `ORDER BY random() LIMIT pool_size` selects a subset of
these rows, so membership facts about the filter cover every pool the
endpoint can build. -/
def context_pool_filter (context : String) (recipes : List Recipe) : List Recipe :=
  if context == "weeknight" || context == "quick" then
    recipes.filter (fun r =>
      match r.total_time_min with
      | some t => decide (t ≤ 45)
      | none => true)
  else if context == "date_night" then
    recipes.filter (fun r =>
      match r.difficulty with
      | some d => d == "medium" || d == "hard"
      | none => false)
  else recipes

/-- Embeds `create_session`'s row creation: one undecided card per
(user, pool recipe) pair, iterating users outermost, no matches, status
"active" (the model default). -/
def create_session_state (pool : List Nat) (users : List Nat) : SwipeState :=
  { cards := users.flatMap (fun u => pool.map (fun r =>
      { recipe_id := r, user_id := u, decision := none })),
    match_rows := [], status := "active" }

/-- The card-lookup WHERE clause of the swipe endpoint. -/
def card_key (a : SwipeAction) (c : SwipeCard) : Bool :=
  c.recipe_id == a.recipe_id && c.user_id == a.user_id

/-- The check `decision in ("like", "superlike")`. -/
def is_like (d : String) : Bool :=
  d == "like" || d == "superlike"

def card_liked (c : SwipeCard) : Bool :=
  match c.decision with
  | some d => is_like d
  | none => false

/-- The `POST /sessions/{id}/swipe` handler on one session's state.
Errors are the HTTP status codes it raises (404 card not found, 400
already swiped); on success it returns the new state and the
`match_found` flag.  The opposing-card query runs after this card's
update is flushed, reads only rows with `user_id != action.user_id`, and
the source's `scalar_one_or_none` is `any` here: sessions hold cards for
at most the two couple users, so at most one opposing row exists.

The UPDATE `card.decision = action.decision` on the session's cards: -/
def apply_decision (cards : List SwipeCard) (a : SwipeAction) : List SwipeCard :=
  cards.map (fun c =>
    if card_key a c then { c with decision := some a.decision } else c)

/-- The opposing-card SELECT: some card on the same recipe, for a
different user, with decision in ("like", "superlike"). -/
def other_user_liked (cards : List SwipeCard) (a : SwipeAction) : Bool :=
  cards.any (fun c =>
    c.recipe_id == a.recipe_id && c.user_id != a.user_id && card_liked c)

def swipe (s : SwipeState) (a : SwipeAction) : Except Nat (SwipeState × Bool) :=
  match s.cards.find? (card_key a) with
  | none => Except.error 404
  | some card =>
    if card.decision.isSome then Except.error 400
    else
      let cards2 := apply_decision s.cards a
      let match_found := is_like a.decision && other_user_liked cards2 a
      let matches2 := if match_found then s.match_rows ++ [a.recipe_id] else s.match_rows
      let remaining := cards2.countP (fun c => c.decision.isNone)
      let status2 := if remaining == 0 then "completed" else s.status
      Except.ok ({ cards := cards2, match_rows := matches2, status := status2 }, match_found)

/-- An erroring swipe commits nothing: the session state is unchanged. -/
def swipe_step (s : SwipeState) (a : SwipeAction) : SwipeState :=
  match swipe s a with
  | Except.ok p => p.1
  | Except.error _ => s

def run_swipes (s : SwipeState) (acts : List SwipeAction) : SwipeState :=
  acts.foldl swipe_step s

/-- Number of cards recording a like/superlike on recipe `r`. -/
def likers_count (s : SwipeState) (r : Nat) : Nat :=
  s.cards.countP (fun c => c.recipe_id == r && card_liked c)

/-- User `u` has recorded like/superlike on recipe `r` in this session. -/
def liked_by (s : SwipeState) (r u : Nat) : Prop :=
  ∃ c ∈ s.cards, c.recipe_id = r ∧ c.user_id = u ∧ card_liked c = true

/-- At least two distinct users have recorded like/superlike on `r`. -/
def two_distinct_likers (s : SwipeState) (r : Nat) : Prop :=
  ∃ u v, u ≠ v ∧ liked_by s r u ∧ liked_by s r v

/-- The per-(user, recipe) distinctness of two card rows, maintained by
the `uq_swipe_card` unique constraint. -/
def card_distinct (c c' : SwipeCard) : Prop :=
  ¬(c.user_id = c'.user_id ∧ c.recipe_id = c'.recipe_id)

/-- Structural facts `create_session` guarantees: per-(user, recipe) card
uniqueness (the `uq_swipe_card` constraint) and cards only for the couple
`COUPLE_IDS = [1, 2]`. -/
def cards_wf (s : SwipeState) : Prop :=
  s.cards.Pairwise card_distinct ∧
  ∀ c ∈ s.cards, c.user_id = 1 ∨ c.user_id = 2

/-- The match-table invariant: one `SwipeMatch` row exactly when two cards
like the recipe, none otherwise. -/
def match_inv (s : SwipeState) : Prop :=
  ∀ r, s.match_rows.count r = if 2 ≤ likers_count s r then 1 else 0

/-! ## Concrete instances used by the claim theorems and witnesses -/

/-- A `protein_max_per_week` rule: chicken at most twice in 7 days. -/
def rule_chx : DietaryRule :=
  { id := 1, name := "Chicken max", rule_type := "protein_max_per_week",
    config := { protein := some "chicken", max := some 2, min := none, period_days := some 7,
                min_days_between_repeat := none, tag := none }, active := true }

/-- Two chicken meals already planned on days 3 and 5; recipes 1-3 all
carry the chicken tag. -/
def db_chx : RulesDb :=
  { meal_plans := [⟨1, 3, 1, "planned"⟩, ⟨2, 5, 2, "cooked"⟩],
    recipe_tags := [(1, "chicken"), (2, "chicken"), (3, "chicken")] }

/-- A `no_repeat_within_days` rule with a 3-day minimum gap. -/
def rule_rep : DietaryRule :=
  { id := 2, name := "No repeat", rule_type := "no_repeat_within_days",
    config := { protein := none, max := none, min := none, period_days := none,
                min_days_between_repeat := some 3, tag := none }, active := true }

/-- A rule whose `rule_type` is none of the five known types. -/
def rule_custom : DietaryRule :=
  { id := 3, name := "Custom rule", rule_type := "custom",
    config := { protein := none, max := none, min := none, period_days := none,
                min_days_between_repeat := none, tag := none }, active := true }

/-- One planned meal whose single ingredient row carries no quantity. -/
def salt_db : ShoppingDb :=
  { meal_plans := [⟨1, 0, 1, "planned"⟩],
    recipe_ingredients := [⟨1, none, "salt", none, ""⟩],
    ingredients := [], pantry_staples := [] }

/-- Two planned recipes, each contributing one "onion" ingredient row
with the given quantity and unit. -/
def two_recipe_db (q1 : ℚ) (u1 : String) (q2 : ℚ) (u2 : String) : ShoppingDb :=
  { meal_plans := [⟨1, 0, 1, "planned"⟩, ⟨2, 1, 2, "planned"⟩],
    recipe_ingredients :=
      [⟨1, none, "onion", some q1, u1⟩, ⟨2, none, "onion", some q2, u2⟩],
    ingredients := [], pantry_staples := [] }

/-- A session holding a single already-decided card. -/
def dup_state : SwipeState :=
  { cards := [{ recipe_id := 1, user_id := 1, decision := some "like" }],
    match_rows := [], status := "active" }

/-- The spec's example session: pool `[R1, R2] = [1, 2]`, users `A = 1`,
`B = 2`. -/
def session_AB : SwipeState := create_session_state [1, 2] [1, 2]

/-- A likes R1, A dislikes R2, B likes R1, B likes R2. -/
def trace_AB : List SwipeAction :=
  [⟨1, 1, "like"⟩, ⟨2, 1, "dislike"⟩, ⟨1, 2, "like"⟩, ⟨2, 2, "like"⟩]

/-! ## Theorems -/

/-- With pairwise-distinct `(recipe_id, tag_name)` rows, the number of
rows matching a fixed pair is 0 or 1. -/
theorem countP_pair_nodup (l : List (Nat × String)) (hnd : l.Nodup) (r : Nat) (n : String) :
    l.countP (fun rt => rt.1 == r && rt.2 == n) =
      if l.any (fun rt => rt.1 == r && rt.2 == n) then 1 else 0 := by
  have hmemeq : ∀ x ∈ l.filter (fun rt => rt.1 == r && rt.2 == n), x = (r, n) := by
    intro x hx
    have hpx := (List.mem_filter.mp hx).2
    cases x
    simp only [beq_iff_eq, Bool.and_eq_true] at hpx
    simp [hpx.1, hpx.2]
  rw [List.countP_eq_length_filter]
  by_cases hany : l.any (fun rt => rt.1 == r && rt.2 == n)
  · rw [if_pos hany]
    have hnodupf : (l.filter (fun rt => rt.1 == r && rt.2 == n)).Nodup := hnd.filter _
    rcases List.any_eq_true.mp hany with ⟨rt, hmem, hrt⟩
    have hf : rt ∈ l.filter (fun rt => rt.1 == r && rt.2 == n) :=
      List.mem_filter.mpr ⟨hmem, hrt⟩
    rcases hfl : l.filter (fun rt => rt.1 == r && rt.2 == n) with _ | ⟨x, _ | ⟨y, t2⟩⟩
    · rw [hfl] at hf
      simp at hf
    · rw [hfl]
      rfl
    · exfalso
      rw [hfl] at hnodupf hmemeq
      have hx := hmemeq x (by simp)
      have hy := hmemeq y (by simp)
      have hne := (List.nodup_cons.mp hnodupf).1
      exact hne (by simp [hx, hy])
  · rw [if_neg hany]
    have hnil : l.filter (fun rt => rt.1 == r && rt.2 == n) = [] :=
      List.filter_eq_nil_iff.mpr
        (fun a ha hpa => hany (List.any_eq_true.mpr ⟨a, ha, hpa⟩))
    simp [hnil]

/-- Under row distinctness, the join count of `_count_protein_in_plan`
equals the number of windowed, non-skipped plans whose recipe carries the
tag. -/
theorem count_protein_eq_countP (db : RulesDb) (hnd : db.recipe_tags.Nodup)
    (protein : String) (a b : Int) :
    count_protein_in_plan db protein a b =
      db.meal_plans.countP (fun p => in_window a b p && recipe_has_tag db p.recipe_id protein) := by
  unfold count_protein_in_plan
  induction db.meal_plans with
  | nil => simp
  | cons p l ih =>
    simp only [List.map_cons, List.sum_cons, List.countP_cons, ih]
    rw [countP_pair_nodup db.recipe_tags hnd p.recipe_id (py_lower protein)]
    unfold recipe_has_tag
    by_cases hw : in_window a b p
    all_goals by_cases ht :
      db.recipe_tags.any (fun rt => rt.1 == p.recipe_id && rt.2 == py_lower protein)
    all_goals simp [hw, ht]
    all_goals omega

/-- C4: for an active `protein_max_per_week` rule with `max = M` and window
`period_days`, evaluation counts the non-skipped meal plans tagged with the
protein in `[date - period_days, date]`, adds 1 when the candidate recipe
carries the tag, and reports "violated" when the total exceeds `M`,
"warning" when it equals `M`, and "ok" otherwise. -/
theorem C4_protein_max (db : RulesDb) (rule : DietaryRule) (plan_date : Int)
    (recipe_id : Nat) (M period : Int) (protein : String)
    (htype : rule.rule_type = "protein_max_per_week")
    (hp : rule.config.protein = some protein)
    (hM : rule.config.max = some M)
    (hper : rule.config.period_days = some period)
    (hnd : db.recipe_tags.Nodup) :
    (evaluate_single_rule db rule plan_date recipe_id).status =
      (if ((db.meal_plans.countP (fun p =>
              p.status != "skipped" && decide (plan_date - period ≤ p.date) &&
                decide (p.date ≤ plan_date) && recipe_has_tag db p.recipe_id protein) : Int) +
            (if recipe_has_tag db recipe_id protein then 1 else 0)) > M then "violated"
       else if ((db.meal_plans.countP (fun p =>
              p.status != "skipped" && decide (plan_date - period ≤ p.date) &&
                decide (p.date ≤ plan_date) && recipe_has_tag db p.recipe_id protein) : Int) +
            (if recipe_has_tag db recipe_id protein then 1 else 0)) = M then "warning"
       else "ok") := by
  have hdisp : evaluate_single_rule db rule plan_date recipe_id =
      eval_protein_max db rule plan_date recipe_id := by
    unfold evaluate_single_rule
    rw [if_pos htype]
  rw [hdisp]
  unfold eval_protein_max
  rw [hp, hM, hper]
  simp only [Option.getD_some]
  rw [count_protein_eq_countP db hnd protein (plan_date - period) plan_date]
  have hcong : db.meal_plans.countP
        (fun p => in_window (plan_date - period) plan_date p &&
          recipe_has_tag db p.recipe_id protein) =
      db.meal_plans.countP (fun p =>
        p.status != "skipped" && decide (plan_date - period ≤ p.date) &&
          decide (p.date ≤ plan_date) && recipe_has_tag db p.recipe_id protein) := by
    apply List.countP_congr
    intro p _
    unfold in_window
    simp [Bool.and_assoc]
  rw [apply_ite RuleResult.status, apply_ite RuleResult.status]
  rw [hcong]

/-- Witness for C4: two chicken meals in the window plus a chicken
candidate exceed `max = 2`, so the rule reports "violated". -/
theorem C4_witness : rule_chx.rule_type = "protein_max_per_week" ∧
    db_chx.recipe_tags.Nodup ∧
    (evaluate_single_rule db_chx rule_chx 7 3).status = "violated" :=
  ⟨rfl, by decide, by
    have h := C4_protein_max db_chx rule_chx 7 3 2 7 "chicken" rfl rfl rfl rfl (by decide)
    rw [h]
    decide⟩

/-- C5: a `no_repeat_within_days` rule with `min_days = D` reports
"violated" exactly when some non-skipped plan of the same recipe lies in
`[date - D, date]` (and "ok" otherwise); in particular a single prior
placement exactly `D + 1` days back yields "ok" while a gap of `0 ≤ g ≤ D`
days yields "violated". -/
theorem C5_no_repeat (db : RulesDb) (rule : DietaryRule) (D : Int) (plan_date : Int)
    (recipe_id : Nat)
    (hD : rule.config.min_days_between_repeat = some D) :
    (((eval_no_repeat db rule plan_date recipe_id).status = "violated") ↔
      ∃ p ∈ db.meal_plans, p.recipe_id = recipe_id ∧ p.status ≠ "skipped" ∧
        plan_date - D ≤ p.date ∧ p.date ≤ plan_date) ∧
    (((eval_no_repeat db rule plan_date recipe_id).status = "ok") ↔
      ¬ ∃ p ∈ db.meal_plans, p.recipe_id = recipe_id ∧ p.status ≠ "skipped" ∧
        plan_date - D ≤ p.date ∧ p.date ≤ plan_date) ∧
    (∀ st : String, st ≠ "skipped" → ∀ i : Nat,
      (eval_no_repeat ⟨[⟨i, plan_date - (D + 1), recipe_id, st⟩], []⟩
        rule plan_date recipe_id).status = "ok") ∧
    (∀ st : String, st ≠ "skipped" → ∀ g : Int, 0 ≤ g → g ≤ D → ∀ i : Nat,
      (eval_no_repeat ⟨[⟨i, plan_date - g, recipe_id, st⟩], []⟩
        rule plan_date recipe_id).status = "violated") := by
  have main : ∀ db' : RulesDb,
      (((eval_no_repeat db' rule plan_date recipe_id).status = "violated") ↔
        ∃ p ∈ db'.meal_plans, p.recipe_id = recipe_id ∧ p.status ≠ "skipped" ∧
          plan_date - D ≤ p.date ∧ p.date ≤ plan_date) ∧
      (((eval_no_repeat db' rule plan_date recipe_id).status = "ok") ↔
        ¬ ∃ p ∈ db'.meal_plans, p.recipe_id = recipe_id ∧ p.status ≠ "skipped" ∧
          plan_date - D ≤ p.date ∧ p.date ≤ plan_date) := by
    intro db'
    have hpred : ∀ p : MealPlanRow,
        ((p.recipe_id == recipe_id && in_window (plan_date - D) plan_date p) = true) ↔
          (p.recipe_id = recipe_id ∧ p.status ≠ "skipped" ∧
            plan_date - D ≤ p.date ∧ p.date ≤ plan_date) := by
      intro p
      unfold in_window
      simp [and_assoc]
    have hexists :
        (∃ p ∈ db'.meal_plans, p.recipe_id = recipe_id ∧ p.status ≠ "skipped" ∧
            plan_date - D ≤ p.date ∧ p.date ≤ plan_date) ↔
          (db'.meal_plans.filter (fun p =>
            p.recipe_id == recipe_id && in_window (plan_date - D) plan_date p)) ≠ [] := by
      constructor
      · rintro ⟨p, hmem, hprop⟩ hnil
        have : p ∈ db'.meal_plans.filter (fun p =>
            p.recipe_id == recipe_id && in_window (plan_date - D) plan_date p) :=
          List.mem_filter.mpr ⟨hmem, (hpred p).mpr hprop⟩
        rw [hnil] at this
        simp at this
      · intro hne
        rcases List.exists_mem_of_ne_nil _ hne with ⟨p, hp⟩
        rcases List.mem_filter.mp hp with ⟨hmem, hprop⟩
        exact ⟨p, hmem, (hpred p).mp hprop⟩
    unfold eval_no_repeat
    rw [hD]
    simp only [Option.getD_some]
    rcases hfl : db'.meal_plans.filter (fun p =>
        p.recipe_id == recipe_id && in_window (plan_date - D) plan_date p) with _ | ⟨p, ps⟩
    · rw [hfl] at hexists
      rw [hfl]
      simp only [ne_eq, not_true_eq_false, iff_false] at hexists
      constructor
      · simp only [show ("ok" : String) ≠ "violated" by decide, iff_false]
        simpa using hexists
      · simpa using hexists
    · rw [hfl] at hexists
      rw [hfl]
      constructor
      · simpa using hexists
      · simp only [show ("violated" : String) ≠ "ok" by decide]
        simpa [iff_false] using hexists
  refine ⟨(main db).1, (main db).2, ?_, ?_⟩
  · intro st hst i
    rcases main ⟨[⟨i, plan_date - (D + 1), recipe_id, st⟩], []⟩ with ⟨_, hok⟩
    rw [hok]
    rintro ⟨p, hmem, hprop⟩
    simp only [List.mem_singleton] at hmem
    subst hmem
    obtain ⟨-, -, h3, h4⟩ := hprop
    dsimp only at h3 h4
    omega
  · intro st hst g hg0 hgD i
    rcases main ⟨[⟨i, plan_date - g, recipe_id, st⟩], []⟩ with ⟨hviol, _⟩
    rw [hviol]
    refine ⟨⟨i, plan_date - g, recipe_id, st⟩, by simp, rfl, hst, ?_, ?_⟩
    · show plan_date - D ≤ plan_date - g
      omega
    · show plan_date - g ≤ plan_date
      omega

/-- Witness for C5: a 2-day-old placement under a 3-day rule is
"violated". -/
theorem C5_witness :
    rule_rep.config.min_days_between_repeat = some 3 ∧
    ("planned" : String) ≠ "skipped" ∧ (0 : Int) ≤ 2 ∧ (2 : Int) ≤ 3 ∧
    (eval_no_repeat ⟨[⟨7, 10 - 2, 1, "planned"⟩], []⟩ rule_rep 10 1).status = "violated" :=
  ⟨rfl, by decide, by decide, by decide,
    (C5_no_repeat ⟨[], []⟩ rule_rep 3 10 1 rfl).2.2.2 "planned" (by decide) 2
      (by decide) (by decide) 7⟩

/-- C7: single-rule evaluation always returns status "ok", "warning" or
"violated"; an unknown `rule_type` fails open with status "ok" and the
advisory message `Unknown rule type: <rule_type>`. -/
theorem C7_rule_eval_status (db : RulesDb) (rule : DietaryRule) (plan_date : Int)
    (recipe_id : Nat) :
    ((evaluate_single_rule db rule plan_date recipe_id).status = "ok" ∨
     (evaluate_single_rule db rule plan_date recipe_id).status = "warning" ∨
     (evaluate_single_rule db rule plan_date recipe_id).status = "violated") ∧
    (rule.rule_type ∉ (["protein_max_per_week", "protein_min_per_period",
        "no_repeat_within_days", "min_tag_per_week", "max_tag_per_week"] : List String) →
      (evaluate_single_rule db rule plan_date recipe_id).status = "ok" ∧
      (evaluate_single_rule db rule plan_date recipe_id).message =
        "Unknown rule type: " ++ rule.rule_type) := by
  constructor
  · unfold evaluate_single_rule
    split_ifs with h1 h2 h3 h4 h5
    · simp only [eval_protein_max]
      split_ifs <;> simp
    · simp only [eval_protein_min]
      split_ifs <;> simp
    · simp only [eval_no_repeat]
      split <;> simp
    · simp only [eval_min_tag]
      split_ifs <;> simp
    · simp only [eval_max_tag]
      split_ifs <;> simp
    · simp
  · intro hmem
    simp only [List.mem_cons, List.not_mem_nil, or_false, not_or] at hmem
    obtain ⟨n1, n2, n3, n4, n5⟩ := hmem
    unfold evaluate_single_rule
    rw [if_neg n1, if_neg n2, if_neg n3, if_neg n4, if_neg n5]
    exact ⟨rfl, rfl⟩

/-- Witness for C7: a rule of type "custom" evaluates to "ok" with the
advisory message. -/
theorem C7_witness :
    (rule_custom.rule_type ∉ (["protein_max_per_week", "protein_min_per_period",
        "no_repeat_within_days", "min_tag_per_week", "max_tag_per_week"] : List String)) ∧
    (evaluate_single_rule ⟨[], []⟩ rule_custom 0 1).status = "ok" ∧
    (evaluate_single_rule ⟨[], []⟩ rule_custom 0 1).message =
      "Unknown rule type: " ++ rule_custom.rule_type :=
  ⟨by decide, (C7_rule_eval_status ⟨[], []⟩ rule_custom 0 1).2 (by decide)⟩

/-- C6: when no non-skipped meal plan falls within
`[week_start, week_start + 6]`, `generate_shopping_list` still returns a
list (the embedding is total, so no error is possible) with zero items. -/
theorem C6_empty_week (db : ShoppingDb) (week_of : Int) (nm : String)
    (h : ∀ p ∈ db.meal_plans, ¬(week_of ≤ p.date ∧ p.date ≤ week_of + 6 ∧ p.status ≠ "skipped")) :
    (generate_shopping_list db week_of nm).items = [] ∧
    (generate_shopping_list db week_of nm).week_of = week_of ∧
    (generate_shopping_list db week_of nm).meal_plan_ids = [] := by
  have hfil : db.meal_plans.filter (fun p =>
      decide (week_of ≤ p.date) && decide (p.date ≤ week_of + 6) && p.status != "skipped") = [] := by
    rw [List.filter_eq_nil_iff]
    intro p hp
    have hh := h p hp
    simp only [Bool.and_eq_true, decide_eq_true_eq, bne_iff_ne, ne_eq]
    tauto
  simp [generate_shopping_list, hfil]

/-- Witness for C6 at an empty database. -/
theorem C6_witness :
    (∀ p ∈ ([] : List MealPlanRow), ¬((0:Int) ≤ p.date ∧ p.date ≤ 0 + 6 ∧ p.status ≠ "skipped")) ∧
    (generate_shopping_list ⟨[], [], [], []⟩ 0 "").items = [] := by
  refine ⟨by simp, ?_⟩
  exact (C6_empty_week ⟨[], [], [], []⟩ 0 "" (by simp)).1

/-- C10: every generated `ShoppingItem` has a strictly positive quantity
or `none`; concretely, an aggregation in which no contributing row carried
a quantity emits the item with quantity `none` and its name, unit and
aisle intact. -/
theorem C10_quantity_positive_or_none :
    (∀ (db : ShoppingDb) (week_of : Int) (nm : String),
      ∀ it ∈ (generate_shopping_list db week_of nm).items,
        it.quantity = none ∨ ∃ q : ℚ, it.quantity = some q ∧ 0 < q) ∧
    (generate_shopping_list salt_db 0 "").items =
      [{ name := "salt", quantity := none, unit := "", aisle := "📦 Other" }] := by
  constructor
  · intro db week_of nm it hit
    simp only [generate_shopping_list] at hit
    split at hit
    · simp at hit
    · simp only [List.mem_map] at hit
      obtain ⟨kv, hkv, rfl⟩ := hit
      by_cases hq : (0 : ℚ) < kv.2.quantity
      · exact Or.inr ⟨kv.2.quantity, by simp [hq], hq⟩
      · exact Or.inl (by simp [hq])
  · simp +decide only [generate_shopping_list, salt_db, process_ing, agg_update, touch_entry,
      default_agg_entry, CATEGORY_TO_AISLE, List.foldl, List.filter, List.map,
      List.mergeSort_singleton, List.isEmpty, List.any, List.contains, List.find?, List.lookup]
    norm_num

/-- Witness for C10 at the no-quantity database. -/
theorem C10_witness :
    (({ name := "salt", quantity := none, unit := "", aisle := "📦 Other" } : ShoppingItem) ∈
      (generate_shopping_list salt_db 0 "").items) ∧
    (({ name := "salt", quantity := none, unit := "", aisle := "📦 Other" } : ShoppingItem).quantity = none ∨
      ∃ q : ℚ, ({ name := "salt", quantity := none, unit := "", aisle := "📦 Other" } :
        ShoppingItem).quantity = some q ∧ 0 < q) := by
  have hmem : ({ name := "salt", quantity := none, unit := "", aisle := "📦 Other" } :
      ShoppingItem) ∈ (generate_shopping_list salt_db 0 "").items := by
    rw [C10_quantity_positive_or_none.2]
    exact List.mem_singleton.mpr rfl
  exact ⟨hmem, C10_quantity_positive_or_none.1 salt_db 0 "" _ hmem⟩

/-- Counterexample to C3: rows of 2 "cups" and 3 "tbsp" of onion are
summed to quantity 5 under unit "cups" — the differing-unit quantity IS
silently added into the sum, contradicting the claim that it is not. -/
theorem C3_counterexample :
    (generate_shopping_list (two_recipe_db 2 "cups" 3 "tbsp") 0 "").items =
      [{ name := "onion", quantity := some 5, unit := "cups", aisle := "📦 Other" }] ∧
    some (5 : ℚ) ≠ some (2 : ℚ) := by
  constructor
  · simp +decide only [generate_shopping_list, two_recipe_db, process_ing, agg_update,
      touch_entry, default_agg_entry, CATEGORY_TO_AISLE, List.foldl, List.filter, List.map,
      List.mergeSort_singleton, List.isEmpty, List.any, List.contains, List.find?, List.lookup]
    norm_num
  · norm_num

/-- C3 as amended: same-key quantities are summed regardless of unit;
the first non-empty unit wins only as the displayed unit label, and a
later row with a different unit still has its quantity added.  With equal
units this gives the claimed 2 cups + 2 cups = 4 cups. -/
theorem C3_amended (q1 q2 : ℚ) (u1 u2 : String) (h1 : 0 < q1) (h2 : 0 < q2)
    (hu : u1 ≠ "") :
    (generate_shopping_list (two_recipe_db q1 u1 q2 u2) 0 "").items =
      [{ name := "onion", quantity := some (q1 + q2), unit := u1, aisle := "📦 Other" }] := by
  simp +decide only [generate_shopping_list, two_recipe_db, process_ing, agg_update,
    touch_entry, default_agg_entry, CATEGORY_TO_AISLE, List.foldl, List.filter, List.map,
    List.mergeSort_singleton, List.isEmpty, List.any, List.contains, List.find?, List.lookup]
  norm_num [h1.ne', h2.ne', hu, h1, h2, add_pos h1 h2]

/-- Witness for the amended C3: the same-unit instance 2 + 2 = 4 cups. -/
theorem C3_witness :
    (0 : ℚ) < 2 ∧ ("cups" : String) ≠ "" ∧
    (generate_shopping_list (two_recipe_db 2 "cups" 2 "cups") 0 "").items =
      [{ name := "onion", quantity := some 4, unit := "cups", aisle := "📦 Other" }] := by
  refine ⟨by norm_num, by decide, ?_⟩
  have h := C3_amended 2 2 "cups" "cups" (by norm_num) (by norm_num) (by decide)
  rw [h]
  norm_num

/-- C8: a swipe on a card that already has a decision is rejected with
HTTP 400 and the session state — cards, match rows and status — is
unchanged. -/
theorem C8_duplicate_swipe (s : SwipeState) (a : SwipeAction) (c : SwipeCard)
    (hfind : s.cards.find? (card_key a) = some c) (hdec : c.decision.isSome) :
    swipe s a = Except.error 400 ∧ swipe_step s a = s := by
  constructor
  · unfold swipe
    rw [hfind]
    simp [hdec]
  · unfold swipe_step swipe
    rw [hfind]
    simp [hdec]

/-- Witness for C8 on a one-card session. -/
theorem C8_witness :
    (dup_state.cards.find? (card_key ⟨1, 1, "dislike"⟩) =
      some { recipe_id := 1, user_id := 1, decision := some "like" }) ∧
    (Option.isSome (some "like") = true) ∧
    swipe dup_state ⟨1, 1, "dislike"⟩ = Except.error 400 ∧
    swipe_step dup_state ⟨1, 1, "dislike"⟩ = dup_state :=
  ⟨rfl, rfl, C8_duplicate_swipe dup_state ⟨1, 1, "dislike"⟩
    { recipe_id := 1, user_id := 1, decision := some "like" } rfl rfl⟩

/-- Counterexample to C9: a recipe with no recorded total time passes the
"quick" filter (`total_time_min <= 45 OR total_time_min IS NULL`), so not
every pooled recipe has total time at most 45 minutes. -/
theorem C9_counterexample :
    (context_pool_filter "quick" [{ id := 1, total_time_min := none, difficulty := none }] =
      [{ id := 1, total_time_min := none, difficulty := none }]) ∧
    ¬ ∃ t : Int, ({ id := 1, total_time_min := none, difficulty := none } :
      Recipe).total_time_min = some t ∧ t ≤ 45 := by
  constructor
  · rfl
  · rintro ⟨t, ht, -⟩
    simp at ht

/-- C9 as amended: for "quick"/"weeknight" every pooled recipe has total
time at most 45 minutes or no recorded total time; for "date_night" every
pooled recipe has difficulty "medium" or "hard". -/
theorem C9_amended :
    (∀ (context : String) (recipes : List Recipe) (r : Recipe),
      (context = "quick" ∨ context = "weeknight") →
      r ∈ context_pool_filter context recipes →
      r.total_time_min = none ∨ ∃ t : Int, r.total_time_min = some t ∧ t ≤ 45) ∧
    (∀ (recipes : List Recipe) (r : Recipe),
      r ∈ context_pool_filter "date_night" recipes →
      r.difficulty = some "medium" ∨ r.difficulty = some "hard") := by
  constructor
  · intro ctx recipes r hctx hr
    have hform : context_pool_filter ctx recipes = recipes.filter (fun r =>
        match r.total_time_min with
        | some t => decide (t ≤ 45)
        | none => true) := by
      rcases hctx with h | h <;> subst h <;> rfl
    rw [hform] at hr
    have hp := (List.mem_filter.mp hr).2
    cases htm : r.total_time_min with
    | none => exact Or.inl rfl
    | some t =>
      refine Or.inr ⟨t, rfl, ?_⟩
      rw [htm] at hp
      simpa using hp
  · intro recipes r hr
    have hform : context_pool_filter "date_night" recipes = recipes.filter (fun r =>
        match r.difficulty with
        | some d => d == "medium" || d == "hard"
        | none => false) := rfl
    rw [hform] at hr
    have hp := (List.mem_filter.mp hr).2
    cases hd : r.difficulty with
    | none =>
      rw [hd] at hp
      simp at hp
    | some d =>
      rw [hd] at hp
      simp only [Bool.or_eq_true, beq_iff_eq] at hp
      rcases hp with h | h
      · exact Or.inl (by rw [h])
      · exact Or.inr (by rw [h])

/-- Witness for the amended C9: a 30-minute recipe in a "quick" pool. -/
theorem C9_witness :
    (("quick" : String) = "quick" ∨ ("quick" : String) = "weeknight") ∧
    (({ id := 1, total_time_min := some 30, difficulty := none } : Recipe) ∈
      context_pool_filter "quick" [{ id := 1, total_time_min := some 30, difficulty := none }]) ∧
    (({ id := 1, total_time_min := some 30, difficulty := none } : Recipe).total_time_min = none ∨
      ∃ t : Int, ({ id := 1, total_time_min := some 30, difficulty := none } :
        Recipe).total_time_min = some t ∧ t ≤ 45) :=
  ⟨Or.inl rfl, by decide,
    C9_amended.1 "quick" [{ id := 1, total_time_min := some 30, difficulty := none }] _
      (Or.inl rfl) (by decide)⟩

/-- Counterexample to C2: in the spec's example trace (A likes R1,
dislikes R2; B likes both) recipe R2 is NOT matched — A disliked it — so
the match set is {R1}, not {R1, R2}; the session does complete. -/
theorem C2_counterexample :
    2 ∉ (run_swipes session_AB trace_AB).match_rows ∧
    1 ∈ (run_swipes session_AB trace_AB).match_rows ∧
    (run_swipes session_AB trace_AB).status = "completed" := by decide

/-- C2 as amended: the example trace yields the match set {R1} exactly,
the session stays "active" while a card is undecided and becomes
"completed" once both users have decided on both cards. -/
theorem C2_amended :
    (run_swipes session_AB trace_AB).match_rows = [1] ∧
    (run_swipes session_AB (trace_AB.take 3)).status = "active" ∧
    (run_swipes session_AB trace_AB).status = "completed" := by decide

/-- The distinctness relation is symmetric. -/
theorem card_distinct_symm : Symmetric card_distinct := by
  intro c c' h hh
  exact h ⟨hh.1.symm, hh.2.symm⟩

/-- The card UPDATE never changes user or recipe ids. -/
theorem apply_decision_fields (a : SwipeAction) (c : SwipeCard) :
    ((if card_key a c then { c with decision := some a.decision } else c).user_id = c.user_id) ∧
    ((if card_key a c then { c with decision := some a.decision } else c).recipe_id = c.recipe_id) := by
  split <;> exact ⟨rfl, rfl⟩

/-- The card UPDATE preserves per-(user, recipe) distinctness. -/
theorem pairwise_apply_decision (cards : List SwipeCard) (a : SwipeAction)
    (hpw : cards.Pairwise card_distinct) :
    (apply_decision cards a).Pairwise card_distinct := by
  unfold apply_decision
  rw [List.pairwise_map]
  refine hpw.imp ?_
  intro c c' h
  unfold card_distinct at h ⊢
  rw [(apply_decision_fields a c).1, (apply_decision_fields a c).2,
    (apply_decision_fields a c').1, (apply_decision_fields a c').2]
  exact h

/-- The card UPDATE preserves the two-user bound. -/
theorem users_apply_decision (cards : List SwipeCard) (a : SwipeAction)
    (hu : ∀ c ∈ cards, c.user_id = 1 ∨ c.user_id = 2) :
    ∀ c ∈ apply_decision cards a, c.user_id = 1 ∨ c.user_id = 2 := by
  intro c hc
  unfold apply_decision at hc
  rw [List.mem_map] at hc
  obtain ⟨c0, hc0, rfl⟩ := hc
  rw [(apply_decision_fields a c0).1]
  exact hu c0 hc0

/-- Likers of a recipe other than the swiped one are untouched. -/
theorem countP_apply_decision_ne (cards : List SwipeCard) (a : SwipeAction) (r : Nat)
    (hne : r ≠ a.recipe_id) :
    (apply_decision cards a).countP (fun x => x.recipe_id == r && card_liked x) =
      cards.countP (fun x => x.recipe_id == r && card_liked x) := by
  unfold apply_decision
  rw [List.countP_map]
  apply List.countP_congr
  intro c _
  by_cases hk : card_key a c
  · have hrec : c.recipe_id = a.recipe_id := by
      unfold card_key at hk
      simp only [Bool.and_eq_true, beq_iff_eq] at hk
      exact hk.1
    simp only [Function.comp_apply, if_pos hk]
    have hfr : (c.recipe_id == r) = false := by
      simp only [beq_eq_false_iff_ne, ne_eq, hrec]
      exact fun h => hne h.symm
    simp [hfr, hrec]
    exact fun h => absurd h.symm hne
  · simp [Function.comp_apply, if_neg hk]

/-- Unfolding the card-lookup key. -/
theorem card_key_fields (a : SwipeAction) (c : SwipeCard) (hk : card_key a c = true) :
    c.recipe_id = a.recipe_id ∧ c.user_id = a.user_id := by
  unfold card_key at hk
  simp only [Bool.and_eq_true, beq_iff_eq] at hk
  exact hk

/-- At most one card matches the lookup key, by distinctness. -/
theorem card_key_unique (a : SwipeAction) (c b : SwipeCard)
    (hd : card_distinct c b) (hkc : card_key a c = true) : card_key a b = false := by
  by_contra h
  rw [Bool.not_eq_false] at h
  rcases card_key_fields a c hkc with ⟨hr, hu⟩
  rcases card_key_fields a b h with ⟨hr', hu'⟩
  exact hd ⟨hu.trans hu'.symm, hr.trans hr'.symm⟩

/-- Swiping the undecided key card adds one liker to its recipe exactly
when the decision is a like/superlike. -/
theorem countP_apply_decision_eq (a : SwipeAction) (cards : List SwipeCard)
    (hpw : cards.Pairwise card_distinct)
    (c : SwipeCard) (hc : c ∈ cards) (hkey : card_key a c = true)
    (hnone : c.decision = none) :
    (apply_decision cards a).countP
        (fun x => x.recipe_id == a.recipe_id && card_liked x) =
      cards.countP (fun x => x.recipe_id == a.recipe_id && card_liked x) +
        (if is_like a.decision then 1 else 0) := by
  induction cards with
  | nil => cases hc
  | cons hd tl ih =>
    rw [List.pairwise_cons] at hpw
    rcases List.mem_cons.mp hc with rfl | hctl
    · have hmap : apply_decision (c :: tl) a =
          ({ c with decision := some a.decision }) :: tl := by
        unfold apply_decision
        rw [List.map_cons, if_pos hkey]
        congr 1
        calc tl.map (fun x => if card_key a x then { x with decision := some a.decision } else x)
            = tl.map id := by
              apply List.map_congr_left
              intro b hb
              rw [if_neg]
              · rfl
              · rw [card_key_unique a c b (hpw.1 b hb) hkey]
                exact Bool.false_ne_true
          _ = tl := tl.map_id
      rw [hmap, List.countP_cons, List.countP_cons]
      have h1 : ((c.recipe_id == a.recipe_id) && card_liked c) = false := by
        simp [card_liked, hnone]
      have h2 : (({ c with decision := some a.decision } : SwipeCard).recipe_id ==
          a.recipe_id && card_liked { c with decision := some a.decision }) =
          is_like a.decision := by
        have := (card_key_fields a c hkey).1
        simp [card_liked, this]
      rw [h1, h2]
      cases hl : is_like a.decision <;> simp
    · have hkhd : card_key a hd = false :=
        card_key_unique a c hd (card_distinct_symm (hpw.1 c hctl)) hkey
      have hmap : apply_decision (hd :: tl) a = hd :: apply_decision tl a := by
        unfold apply_decision
        rw [List.map_cons, if_neg (by rw [hkhd]; exact Bool.false_ne_true)]
      rw [hmap, List.countP_cons, List.countP_cons, ih hpw.2 hctl]
      omega

/-- The opposing-card query reads the same rows before and after this
card's update (it excludes the swiping user). -/
theorem other_user_liked_apply (cards : List SwipeCard) (a : SwipeAction) :
    other_user_liked (apply_decision cards a) a = other_user_liked cards a := by
  unfold other_user_liked apply_decision
  rw [List.any_map]
  have hfun : ((fun c : SwipeCard =>
        c.recipe_id == a.recipe_id && c.user_id != a.user_id && card_liked c) ∘
      (fun c => if card_key a c then { c with decision := some a.decision } else c)) =
      (fun c : SwipeCard =>
        c.recipe_id == a.recipe_id && c.user_id != a.user_id && card_liked c) := by
    funext c
    by_cases hk : card_key a c
    · have hu : c.user_id = a.user_id := (card_key_fields a c hk).2
      simp only [Function.comp_apply, if_pos hk]
      simp [hu]
    · simp [Function.comp_apply, if_neg hk]
  rw [hfun]

/-- Any liker of the swiped recipe belongs to the other user. -/
theorem liker_user_ne (cards : List SwipeCard) (a : SwipeAction)
    (hpw : cards.Pairwise card_distinct)
    (c : SwipeCard) (hc : c ∈ cards) (hkey : card_key a c = true)
    (hnone : c.decision = none)
    (x : SwipeCard) (hx : x ∈ cards) (hxr : x.recipe_id = a.recipe_id)
    (hxl : card_liked x = true) : x.user_id ≠ a.user_id := by
  intro hxu
  have hxc : x ≠ c := by
    intro h
    rw [h] at hxl
    simp [card_liked, hnone] at hxl
  have hdist := (hpw.forall card_distinct_symm) hx hc hxc
  rcases card_key_fields a c hkey with ⟨hcr, hcu⟩
  exact hdist ⟨hxu.trans hcu.symm, hxr.trans hcr.symm⟩

/-- The opposing-card query succeeds exactly when the swiped recipe
already has a liker. -/
theorem other_user_liked_iff (cards : List SwipeCard) (a : SwipeAction)
    (hpw : cards.Pairwise card_distinct)
    (c : SwipeCard) (hc : c ∈ cards) (hkey : card_key a c = true)
    (hnone : c.decision = none) :
    other_user_liked cards a = true ↔
      1 ≤ cards.countP (fun x => x.recipe_id == a.recipe_id && card_liked x) := by
  constructor
  · intro h
    rcases List.any_eq_true.mp h with ⟨x, hx, hxp⟩
    simp only [Bool.and_eq_true, beq_iff_eq] at hxp
    have : 0 < cards.countP (fun x => x.recipe_id == a.recipe_id && card_liked x) :=
      List.countP_pos_iff.mpr ⟨x, hx, by simp [hxp.1.1, hxp.2]⟩
    omega
  · intro h
    have : 0 < cards.countP (fun x => x.recipe_id == a.recipe_id && card_liked x) := by omega
    rcases List.countP_pos_iff.mp this with ⟨x, hx, hxp⟩
    simp only [Bool.and_eq_true, beq_iff_eq] at hxp
    refine List.any_eq_true.mpr ⟨x, hx, ?_⟩
    have hne := liker_user_ne cards a hpw c hc hkey hnone x hx hxp.1 hxp.2
    simp [hxp.1, hxp.2, hne]

/-- A list with two distinct members has length at least two. -/
theorem two_mem_length (l : List SwipeCard) (x y : SwipeCard)
    (hx : x ∈ l) (hy : y ∈ l) (hne : x ≠ y) : 2 ≤ l.length := by
  rcases l with _ | ⟨a, _ | ⟨b, t⟩⟩
  · cases hx
  · rw [List.mem_singleton] at hx hy
    exact absurd (hx.trans hy.symm) hne
  · simp only [List.length_cons]
    omega

/-- Before the key card decides, its recipe has at most one liker: cards
are per-(user, recipe) unique and only users 1 and 2 hold cards. -/
theorem likers_le_one (cards : List SwipeCard) (a : SwipeAction)
    (hpw : cards.Pairwise card_distinct)
    (husers : ∀ x ∈ cards, x.user_id = 1 ∨ x.user_id = 2)
    (c : SwipeCard) (hc : c ∈ cards) (hkey : card_key a c = true)
    (hnone : c.decision = none) :
    cards.countP (fun x => x.recipe_id == a.recipe_id && card_liked x) ≤ 1 := by
  rw [List.countP_eq_length_filter]
  rcases hfl : cards.filter (fun x => x.recipe_id == a.recipe_id && card_liked x)
    with _ | ⟨x, _ | ⟨y, t⟩⟩
  · rw [hfl]
    simp
  · rw [hfl]
    simp
  · exfalso
    have hpwf : (cards.filter
        (fun x => x.recipe_id == a.recipe_id && card_liked x)).Pairwise card_distinct :=
      List.Pairwise.sublist (List.filter_sublist cards) hpw
    rw [hfl, List.pairwise_cons] at hpwf
    have hdxy : card_distinct x y := hpwf.1 y (by simp)
    have hxmem : x ∈ cards.filter (fun x => x.recipe_id == a.recipe_id && card_liked x) := by
      rw [hfl]; simp
    have hymem : y ∈ cards.filter (fun x => x.recipe_id == a.recipe_id && card_liked x) := by
      rw [hfl]; simp
    rcases List.mem_filter.mp hxmem with ⟨hxc, hxp⟩
    rcases List.mem_filter.mp hymem with ⟨hyc, hyp⟩
    simp only [Bool.and_eq_true, beq_iff_eq] at hxp hyp
    have hxu := liker_user_ne cards a hpw c hc hkey hnone x hxc hxp.1 hxp.2
    have hyu := liker_user_ne cards a hpw c hc hkey hnone y hyc hyp.1 hyp.2
    have hcu : c.user_id = a.user_id := (card_key_fields a c hkey).2
    have hcu12 := husers c hc
    have hxu12 := husers x hxc
    have hyu12 := husers y hyc
    have hxyu : x.user_id = y.user_id := by
      rw [hcu] at hcu12
      rcases hcu12 with h | h <;> rcases hxu12 with h1 | h1 <;> rcases hyu12 with h2 | h2 <;>
        omega
    exact hdxy ⟨hxyu, hxp.1.trans hyp.1.symm⟩

/-- Session creation yields per-(user, recipe) distinct cards. -/
theorem init_pairwise (pool users : List Nat) (hnp : pool.Nodup) (hnu : users.Nodup) :
    (users.flatMap (fun u => pool.map (fun r =>
      ({ recipe_id := r, user_id := u, decision := none } : SwipeCard)))).Pairwise
      card_distinct := by
  induction users with
  | nil => simp
  | cons u us ih =>
    rw [List.flatMap_cons, List.pairwise_append]
    rcases List.nodup_cons.mp hnu with ⟨hnotmem, hnus⟩
    refine ⟨?_, ih hnus, ?_⟩
    · rw [List.pairwise_map]
      refine hnp.imp ?_
      intro r r' hne h
      exact hne h.2
    · intro x hx y hy
      rw [List.mem_map] at hx
      obtain ⟨r, hr, rfl⟩ := hx
      rw [List.mem_flatMap] at hy
      obtain ⟨v, hv, hy⟩ := hy
      rw [List.mem_map] at hy
      obtain ⟨r', hr', rfl⟩ := hy
      intro h
      have huv : u = v := h.1
      exact hnotmem (huv ▸ hv)

/-- A freshly created session satisfies the structural facts and the
match invariant (no decisions, no matches). -/
theorem init_state_wf (pool users : List Nat) (hnp : pool.Nodup) (hnu : users.Nodup)
    (hu : ∀ u ∈ users, u = 1 ∨ u = 2) :
    cards_wf (create_session_state pool users) ∧
    match_inv (create_session_state pool users) := by
  refine ⟨⟨init_pairwise pool users hnp hnu, ?_⟩, ?_⟩
  · intro c hc
    unfold create_session_state at hc
    simp only at hc
    rw [List.mem_flatMap] at hc
    obtain ⟨u, hu', hc⟩ := hc
    rw [List.mem_map] at hc
    obtain ⟨r, hr, rfl⟩ := hc
    exact hu u hu'
  · intro r
    unfold create_session_state likers_count
    simp only
    have hz : (users.flatMap (fun u => pool.map (fun rr =>
        ({ recipe_id := rr, user_id := u, decision := none } : SwipeCard)))).countP
          (fun c => c.recipe_id == r && card_liked c) = 0 := by
      rw [List.countP_eq_zero]
      intro c hc
      rw [List.mem_flatMap] at hc
      obtain ⟨u, hu', hc⟩ := hc
      rw [List.mem_map] at hc
      obtain ⟨rr, hrr, rfl⟩ := hc
      simp [card_liked]
    rw [hz]
    simp

/-- One swipe request — accepted or rejected — preserves the structural
facts and the match invariant. -/
theorem swipe_step_preserves (s : SwipeState) (a : SwipeAction)
    (hwf : cards_wf s) (hinv : match_inv s) :
    cards_wf (swipe_step s a) ∧ match_inv (swipe_step s a) := by
  unfold swipe_step swipe
  cases hfind : s.cards.find? (card_key a) with
  | none => exact ⟨hwf, hinv⟩
  | some c =>
    dsimp only
    by_cases hdec : c.decision.isSome
    · rw [if_pos hdec]
      exact ⟨hwf, hinv⟩
    · rw [if_neg hdec]
      have hnone : c.decision = none := Option.not_isSome_iff_eq_none.mp hdec
      have hc : c ∈ s.cards := List.mem_of_find?_eq_some hfind
      have hkey : card_key a c = true := List.find?_some hfind
      dsimp only
      constructor
      · exact ⟨pairwise_apply_decision s.cards a hwf.1,
          users_apply_decision s.cards a hwf.2⟩
      · intro r
        dsimp only [likers_count]
        rw [other_user_liked_apply]
        by_cases hr : r = a.recipe_id
        · subst hr
          have hle := likers_le_one s.cards a hwf.1 hwf.2 c hc hkey hnone
          have heq := countP_apply_decision_eq a s.cards hwf.1 c hc hkey hnone
          have hiff := other_user_liked_iff s.cards a hwf.1 c hc hkey hnone
          have hinv0 := hinv a.recipe_id
          dsimp only [likers_count] at hinv0
          rw [heq]
          cases hlike : is_like a.decision with
          | false =>
            simp only [Bool.false_and]
            rw [if_neg (by decide : ¬(false = true))]
            rw [hinv0]
            simp
          | true =>
            simp only [Bool.true_and]
            cases houl : other_user_liked s.cards a with
            | false =>
              have hn0 : s.cards.countP
                  (fun x => x.recipe_id == a.recipe_id && card_liked x) = 0 := by
                by_contra h0
                have hx : other_user_liked s.cards a = true := hiff.mpr (by omega)
                rw [houl] at hx
                cases hx
              rw [if_neg (by decide : ¬(false = true))]
              rw [hinv0, hn0]
              simp
            | true =>
              have hn1 : s.cards.countP
                  (fun x => x.recipe_id == a.recipe_id && card_liked x) = 1 := by
                have := hiff.mp houl
                omega
              rw [if_pos rfl, List.count_append, hinv0, hn1]
              simp
        · rw [countP_apply_decision_ne s.cards a r hr]
          have hcnt : List.count r [a.recipe_id] = 0 := by
            rw [List.count_eq_zero]
            simp [hr]
          have hmr : ∀ b : Bool, (if (is_like a.decision && b) = true then
              s.match_rows ++ [a.recipe_id] else s.match_rows).count r =
              s.match_rows.count r := by
            intro b
            split
            · rw [List.count_append, hcnt, Nat.add_zero]
            · rfl
          rw [hmr]
          exact hinv r

/-- Any sequence of swipe requests preserves both invariants. -/
theorem run_swipes_preserves (acts : List SwipeAction) (s : SwipeState)
    (h : cards_wf s ∧ match_inv s) :
    cards_wf (run_swipes s acts) ∧ match_inv (run_swipes s acts) := by
  induction acts generalizing s with
  | nil => exact h
  | cons a rest ih =>
    unfold run_swipes
    rw [List.foldl_cons]
    exact ih (swipe_step s a) (swipe_step_preserves s a h.1 h.2)

/-- Under the structural facts, a recipe has two liker cards exactly when
two distinct users recorded like/superlike on it. -/
theorem two_le_likers_iff (s : SwipeState) (hwf : cards_wf s) (r : Nat) :
    2 ≤ likers_count s r ↔ two_distinct_likers s r := by
  constructor
  · intro h
    unfold likers_count at h
    rw [List.countP_eq_length_filter] at h
    rcases hfl : s.cards.filter (fun c => c.recipe_id == r && card_liked c)
      with _ | ⟨x, _ | ⟨y, t⟩⟩
    · rw [hfl] at h
      simp at h
    · rw [hfl] at h
      simp at h
    · have hpwf : (s.cards.filter
          (fun c => c.recipe_id == r && card_liked c)).Pairwise card_distinct :=
        List.Pairwise.sublist (List.filter_sublist s.cards) hwf.1
      rw [hfl, List.pairwise_cons] at hpwf
      have hdxy := hpwf.1 y (by simp)
      have hx : x ∈ s.cards.filter (fun c => c.recipe_id == r && card_liked c) := by
        rw [hfl]
        simp
      have hy : y ∈ s.cards.filter (fun c => c.recipe_id == r && card_liked c) := by
        rw [hfl]
        simp
      rcases List.mem_filter.mp hx with ⟨hxc, hxp⟩
      rcases List.mem_filter.mp hy with ⟨hyc, hyp⟩
      simp only [Bool.and_eq_true, beq_iff_eq] at hxp hyp
      have hne : x.user_id ≠ y.user_id := by
        intro he
        exact hdxy ⟨he, hxp.1.trans hyp.1.symm⟩
      exact ⟨x.user_id, y.user_id, hne,
        ⟨x, hxc, hxp.1, rfl, hxp.2⟩, ⟨y, hyc, hyp.1, rfl, hyp.2⟩⟩
  · rintro ⟨u, v, huv, ⟨cu, hcu, hcur, hcuu, hcul⟩, ⟨cv, hcv, hcvr, hcvu, hcvl⟩⟩
    have hcne : cu ≠ cv := by
      intro h
      apply huv
      rw [← hcuu, ← hcvu, h]
    unfold likers_count
    rw [List.countP_eq_length_filter]
    refine two_mem_length _ cu cv ?_ ?_ hcne
    · exact List.mem_filter.mpr ⟨hcu, by simp [hcur, hcul]⟩
    · exact List.mem_filter.mpr ⟨hcv, by simp [hcvr, hcvl]⟩

/-- C1: after any sequence of swipe operations on a created session, a
`SwipeMatch` row for a recipe exists if and only if at least two distinct
users recorded decision like/superlike on their cards for that recipe, and
there is never more than one match row per (session, recipe) pair. -/
theorem C1_swipe_match_invariant (pool users : List Nat) (acts : List SwipeAction)
    (hnp : pool.Nodup) (hnu : users.Nodup)
    (hu : ∀ u ∈ users, u = 1 ∨ u = 2) (r : Nat) :
    (run_swipes (create_session_state pool users) acts).match_rows.count r ≤ 1 ∧
    (r ∈ (run_swipes (create_session_state pool users) acts).match_rows ↔
      two_distinct_likers (run_swipes (create_session_state pool users) acts) r) := by
  have hrun := run_swipes_preserves acts (create_session_state pool users)
    (init_state_wf pool users hnp hnu hu)
  have hinv := hrun.2 r
  constructor
  · rw [hinv]
    split <;> omega
  · rw [← two_le_likers_iff (run_swipes (create_session_state pool users) acts) hrun.1 r]
    constructor
    · intro hmem
      have hpos := List.count_pos_iff.mpr hmem
      rw [hinv] at hpos
      by_contra h2
      rw [if_neg h2] at hpos
      omega
    · intro h2
      apply List.count_pos_iff.mp
      rw [hinv, if_pos h2]
      omega

/-- Witness for C1: both users like recipe 1. -/
theorem C1_witness :
    ([1, 2] : List Nat).Nodup ∧ (∀ u ∈ ([1, 2] : List Nat), u = 1 ∨ u = 2) ∧
    ((run_swipes (create_session_state [1, 2] [1, 2])
        [⟨1, 1, "like"⟩, ⟨1, 2, "superlike"⟩]).match_rows.count 1 ≤ 1 ∧
      (1 ∈ (run_swipes (create_session_state [1, 2] [1, 2])
          [⟨1, 1, "like"⟩, ⟨1, 2, "superlike"⟩]).match_rows ↔
        two_distinct_likers (run_swipes (create_session_state [1, 2] [1, 2])
          [⟨1, 1, "like"⟩, ⟨1, 2, "superlike"⟩]) 1)) :=
  ⟨by decide, by decide,
    C1_swipe_match_invariant [1, 2] [1, 2] [⟨1, 1, "like"⟩, ⟨1, 2, "superlike"⟩]
      (by decide) (by decide) (by decide) 1⟩

end DukeCook
